import Mathlib

/-!
Shallow embedding of the `dvrip_rs` library (a Rust client for the DVRIP /
Sofia camera protocol) and proofs about its packet codec, password hash,
return-code handling, writer task, file-listing pagination, audio
backchannel, upgrade procedure, device-time bitfields and media payload
parser.

Bytes are modelled as `Nat` values `< 256`; machine integers (`u8`, `u16`,
`u32`) as `Nat` with explicit bounds or `% 2^w` where the Rust code relies
on a fixed width.  Fallible Rust functions returning `Result<T>` become
`Except DVRIPError T`; a Rust panic (out-of-bounds slice index) is
modelled as `Option.none` in the one function where it is reachable.
-/

namespace DVRIP

/-- Embedding of `src/error.rs`, `enum DVRIPError` (fields carrying
`std::io::Error` are irrelevant here; the message strings are kept). -/
inductive DVRIPError where
  | connectionError (msg : String)
  | authenticationError (msg : String)
  | protocolError (msg : String)
  | serializationError (msg : String)
  | notInitialized
  | unknown (msg : String)
deriving DecidableEq, Repr

/-! ### Little/big endian byte helpers (`byteorder` crate semantics) -/

/-- Rust `LittleEndian::write_u16`: the two bytes of `n % 2^16`, low first. -/
def leBytes16 (n : Nat) : List Nat := [n % 256, n / 256 % 256]

/-- Rust `LittleEndian::write_u32`: the four bytes of `n % 2^32`, low first. -/
def leBytes32 (n : Nat) : List Nat :=
  [n % 256, n / 256 % 256, n / 256 ^ 2 % 256, n / 256 ^ 3 % 256]

/-- Big-endian encoding of a `u32`, as in `0x1FAu32.to_be_bytes()`. -/
def beBytes32 (n : Nat) : List Nat :=
  [n / 256 ^ 3 % 256, n / 256 ^ 2 % 256, n / 256 % 256, n % 256]

/-- Rust `LittleEndian::read_u16` from two consecutive bytes of a list. -/
def leRead16 (l : List Nat) (off : Nat) : Nat :=
  l.getD off 0 + 256 * l.getD (off + 1) 0

/-- Rust `LittleEndian::read_u32` from four consecutive bytes of a list. -/
def leRead32 (l : List Nat) (off : Nat) : Nat :=
  l.getD off 0 + 256 * l.getD (off + 1) 0 + 256 ^ 2 * l.getD (off + 2) 0 +
    256 ^ 3 * l.getD (off + 3) 0

/-- Rust `BigEndian::read_u32` from four consecutive bytes of a list. -/
def beRead32 (l : List Nat) (off : Nat) : Nat :=
  256 ^ 3 * l.getD off 0 + 256 ^ 2 * l.getD (off + 1) 0 +
    256 * l.getD (off + 2) 0 + l.getD (off + 3) 0

/-! ### `src/protocol.rs`: `PacketHeader` -/

/-- Embedding of `struct PacketHeader` (`src/protocol.rs`).  Rust field
types: `head: u8`, `version: u8`, `session: u32`, `packet_count: u32`,
`msg_id: u16`, `data_len: u32`. -/
structure PacketHeader where
  head : Nat
  version : Nat
  session : Nat
  packet_count : Nat
  msg_id : Nat
  data_len : Nat
deriving DecidableEq, Repr

/-- The Rust field types bound each field values. -/
def PacketHeader.Wf (h : PacketHeader) : Prop :=
  h.head < 2 ^ 8 ∧ h.version < 2 ^ 8 ∧ h.session < 2 ^ 32 ∧
    h.packet_count < 2 ^ 32 ∧ h.msg_id < 2 ^ 16 ∧ h.data_len < 2 ^ 32

instance (h : PacketHeader) : Decidable h.Wf := by
  unfold PacketHeader.Wf; infer_instance

/-- Rust `PacketHeader::SIZE`. -/
def PacketHeader.SIZE : Nat := 20

/-- Rust `PacketHeader::encode`: a 20-byte buffer, initially zeroed, with
`head` at 0, `version` at 1, `session` LE at 4..8, `packet_count` LE at
8..12, `msg_id` LE at 14..16 and `data_len` LE at 16..20 (bytes 2, 3, 12,
13 stay zero). -/
def PacketHeader.encode (h : PacketHeader) : List Nat :=
  [h.head, h.version, 0, 0] ++ leBytes32 h.session ++ leBytes32 h.packet_count ++
    [0, 0] ++ leBytes16 h.msg_id ++ leBytes32 h.data_len

/-- Rust `PacketHeader::decode`: errors when fewer than 20 bytes are given,
otherwise reads the fields back from the same offsets. -/
def PacketHeader.decode (data : List Nat) : Except DVRIPError PacketHeader :=
  if data.length < PacketHeader.SIZE then
    .error (.protocolError "Header too small")
  else
    .ok { head := data.getD 0 0
          version := data.getD 1 0
          session := leRead32 data 4
          packet_count := leRead32 data 8
          msg_id := leRead16 data 14
          data_len := leRead32 data 16 }

/-! ### `src/commands/monitoring.rs`: device-time bitfields -/

/-- The six calendar fields extracted by `internal_to_datetime_static`
(`src/commands/monitoring.rs` lines 227-241) before the `chrono`
conversion. -/
structure DvrDateTime where
  second : Nat
  minute : Nat
  hour : Nat
  day : Nat
  month : Nat
  year : Nat
deriving DecidableEq, Repr

/-- The bitfield extraction of `internal_to_datetime_static`: seconds in
bits 0-5, minutes in 6-11, hours in 12-16, day in 17-21, month in 22-25,
year offset from 2000 in 26-31. -/
def internal_to_datetime_fields (value : Nat) : DvrDateTime :=
  { second := value &&& 0x3F
    minute := (value &&& 0xFC0) >>> 6
    hour := (value &&& 0x1F000) >>> 12
    day := (value &&& 0x3E0000) >>> 17
    month := (value &&& 0x3C00000) >>> 22
    year := ((value &&& 0xFC000000) >>> 26) + 2000 }

/-! ### `src/constants.rs` -/

/-- Rust `OK_CODES: &[u32] = &[100, 515]`. -/
def OK_CODES : List Nat := [100, 515]

/-- Rust `QCODES` (`src/constants.rs`), the command-name-to-message-id map. -/
def QCODES : List (String × Nat) :=
  [("AuthorityList", 1470), ("Users", 1472), ("Groups", 1474),
   ("AddGroup", 1476), ("ModifyGroup", 1478), ("DelGroup", 1480),
   ("User", 1482), ("ModifyUser", 1484), ("DelUser", 1486),
   ("ModifyPassword", 1488), ("AlarmInfo", 1504), ("AlarmSet", 1500),
   ("ChannelTitle", 1046), ("EncodeCapability", 1360), ("General", 1042),
   ("KeepAlive", 1006), ("OPMachine", 1450), ("OPMailTest", 1636),
   ("OPMonitor", 1413), ("OPNetKeyboard", 1550), ("OPPTZControl", 1400),
   ("OPSNAP", 1560), ("OPSendFile", 0x5F2), ("OPSystemUpgrade", 0x5F5),
   ("OPTalk", 1434), ("OPTimeQuery", 1452), ("OPTimeSetting", 1450),
   ("NetWork.NetCommon", 1042), ("OPNetAlarm", 1506),
   ("SystemFunction", 1360), ("SystemInfo", 1020)]

/-- Rust `QCODES.get(command)`. -/
def qcodesGet (command : String) : Option Nat :=
  (QCODES.find? (fun p => p.1 = command)).map (·.2)

/-! ### `src/dvrip.rs`: `set_command` message id, `get_command` Ret check -/

/-- The message id computed by `set_command` (`src/dvrip.rs` lines
184-185): `code.unwrap_or_else(|| QCODES.get(command).copied()
.unwrap_or(0) as u32) as u16`. -/
def set_command_msg_id (command : String) (code : Option Nat) : Nat :=
  (code.getD ((qcodesGet command).getD 0)) % 2 ^ 16

/-- A JSON reply, abstracted to the parts the Ret-code logic inspects:
the optional numeric `Ret` field and an abstract tag standing for the rest
of the object. -/
structure JsonReply where
  ret : Option Nat
  rest : Nat
deriving DecidableEq, Repr

/-- The success test of `get_command` (`src/dvrip.rs` lines 167-172):
`Ret` is present and contained in `OK_CODES`. -/
def get_command_ret_ok (reply : JsonReply) : Bool :=
  match reply.ret with
  | some r => OK_CODES.contains r
  | none => false

/-! ### `src/commands/file_management.rs`: `list_local_files` -/

/-- One entry of an `OPFileQuery` reply array, abstracted to its optional
`BeginTime` string and an abstract tag standing for the other fields. -/
structure FileEntry where
  beginTime : Option String
  rest : Nat
deriving DecidableEq, Repr

/-- A device reply to an `OPFileQuery` request: the optional `Ret` code
and the optional `OPFileQuery` array. -/
structure FQReply where
  ret : Option Nat
  files : Option (List FileEntry)
deriving DecidableEq, Repr

/-- The early-exit guard of `list_local_files`
(`src/commands/file_management.rs` lines 71-75): return an empty list
when `Ret` is present and differs from `100`. -/
def list_local_files_ret_fails (reply : FQReply) : Bool :=
  match reply.ret with
  | some r => r != 100
  | none => false

/-- The pagination loop of `list_local_files` (lines 83-121).  `reply` is
the reply currently examined, `device` the queue of replies the device
will give to further queries, `result` the accumulated entries and
`queries` the `BeginTime` values of the queries issued so far (appended
for each reissued query).  Exhausting `device` while a query is pending
models `send_command` failing to produce a reply. -/
def list_local_files_loop :
    FQReply → List FQReply → List FileEntry → List String →
      Except DVRIPError (List FileEntry × List String)
  | reply, device, result, queries =>
    match reply.files with
    | none => .ok (result, queries)
    | some files =>
      if files.length ≠ 64 then .ok (result, queries)
      else
        match files.getLast? with
        | none => .ok (result, queries)
        | some lastFile =>
          match lastFile.beginTime with
          | none => .ok (result, queries)
          | some newStart =>
            match device with
            | [] => .error (.protocolError "Resposta vazia")
            | newReply :: rest =>
              match newReply.files with
              | none => .ok (result, queries ++ [newStart])
              | some newFiles =>
                if newFiles.isEmpty then .ok (result, queries ++ [newStart])
                else
                  list_local_files_loop newReply rest (result ++ newFiles)
                    (queries ++ [newStart])

/-- Rust `list_local_files` (lines 41-124): issue the first query with the
formatted start time, bail out to an empty list when `Ret ≠ 100`, seed
the result with the array of the first reply and run the pagination loop.
`device` is the queue of replies; the returned list of strings records
the `BeginTime` carried by each query issued. -/
def list_local_files (device : List FQReply) (startStr : String) :
    Except DVRIPError (List FileEntry × List String) :=
  match device with
  | [] => .error (.protocolError "Empty response")
  | reply :: rest =>
    if list_local_files_ret_fails reply then .ok ([], [startStr])
    else
      list_local_files_loop reply rest
        (match reply.files with | some fs => fs | none => []) [startStr]

/-! ### `src/commands/connection.rs`: the writer task -/

/-- Embedding of `struct CommandRequest` (declared outside `src/`; its
shape is determined by its use in the writer task of
`Connection::connect`, `src/commands/connection.rs` lines 100-138): a
header, a flag selecting the internal packet counter of the writer, an
optional oneshot response sender (modelled by a numeric sink id) and the
body bytes. -/
structure CommandRequest where
  header : PacketHeader
  use_internal_counter : Bool
  response_sender : Option Nat
  data : List Nat
deriving DecidableEq, Repr

/-- An observable action of the writer task, in program order. -/
inductive WriterEvent where
  | insertWaiter (key : Nat) (sink : Nat)
  | writeBytes (bytes : List Nat)
  | flush
deriving DecidableEq, Repr

/-- The message ids for which the writer keys the response waiter on
`packet_count + 1` (`src/commands/connection.rs` lines 113-115). -/
def writer_special_msg_id (msgId : Nat) : Bool :=
  msgId == 0x0585 || msgId == 0x590 || msgId == 0x059a

/-- One iteration of the writer task loop (`src/commands/connection.rs`
lines 100-138): substitute the internal counter when requested, insert
the response waiter (if any) keyed on the possibly adjusted counter,
then write the encoded header, write the body, flush, and step the
internal counter.  Returns the event trace of the iteration and the new
internal counter. -/
def writer_step (packet_count : Nat) (request : CommandRequest) :
    List WriterEvent × Nat :=
  let header :=
    if request.use_internal_counter then
      { request.header with packet_count := packet_count }
    else request.header
  let inserts :=
    match request.response_sender with
    | some sink =>
      [WriterEvent.insertWaiter
        (if writer_special_msg_id header.msg_id then header.packet_count + 1
         else header.packet_count) sink]
    | none => []
  (inserts ++ [.writeBytes header.encode, .writeBytes request.data, .flush],
   if request.use_internal_counter then packet_count + 1 else packet_count)

/-! ### `src/commands/upgrade.rs`: phase A -/

/-- The message id of the phase-A `set_command` call of `upgrade`
(`src/commands/upgrade.rs` lines 44-46): `set_command("OPSystemUpgrade",
{Action: "Start", Type: "System"}, Some(0x5F0))`. -/
def upgrade_phase_a_msg_id : Nat := set_command_msg_id "OPSystemUpgrade" (some 0x5F0)

/-- The per-block ACK evaluation inside `upgrade`
(`src/commands/upgrade.rs` lines 120-127): the block reply is treated as
a failure when `Ret` is present and differs from `100`. -/
def upgrade_block_ack_fails (reply : JsonReply) : Bool :=
  match reply.ret with
  | some r => r != 100
  | none => false

/-- Phase A of `upgrade` (`src/commands/upgrade.rs` lines 38-52 and the
block loop): given the reply to the start command and the firmware
blocks the file would provide, return the blocks actually submitted and
the early result, `some reply` meaning `upgrade` returns that reply
unchanged.  When `Ret` is present and outside `OK_CODES`, no block is
sent and the start reply is returned as is. -/
def upgrade_phase_a (startReply : JsonReply) (blocks : List (List Nat)) :
    List (List Nat) × Option JsonReply :=
  if (match startReply.ret with
      | some r => !(OK_CODES.contains r)
      | none => false) then
    ([], some startReply)
  else
    (blocks, none)

/-! ### `src/commands/backchannel.rs`: the talk backchannel -/

/-- Rust `enum AudioCodec` (`src/commands/backchannel.rs`). -/
inductive AudioCodec where
  | PCMA
  | PCMU
deriving DecidableEq, Repr

/-- The codec id byte placed at offset 4 of each talk frame
(`src/commands/backchannel.rs` lines 86-89). -/
def codec_id : AudioCodec → Nat
  | .PCMA => 14
  | .PCMU => 10

/-- The per-session talk state of `DVRIPCam`: the `codec` mutex (set by
`start_talk`, cleared by `stop_talk`) and the `backchannel_buffer`
mutex.  Both fields are declared outside `src/`; their use in
`src/commands/backchannel.rs` fixes their shape. -/
structure TalkState where
  codec : Option AudioCodec
  buffer : List Nat
deriving DecidableEq, Repr

/-- One raw talk frame built by `send_audio` (lines 94-104): the
big-endian `u32` `0x1FA`, the codec id byte, the sample-rate index `2`,
the little-endian `u16` payload length `320`, then the 320-byte chunk. -/
def talk_frame (codec : AudioCodec) (chunk : List Nat) : List Nat :=
  beBytes32 0x1FA ++ [codec_id codec, 2] ++ leBytes16 320 ++ chunk

/-- The drain loop of `send_audio` (lines 91-107): while the buffer
holds at least 320 bytes, drain a 320-byte chunk and emit one frame.
Returns the emitted frames in order and the remaining buffer. -/
def drain_talk_frames (codec : AudioCodec) (buffer : List Nat) :
    List (List Nat) × List Nat :=
  if _h : 320 ≤ buffer.length then
    let chunk := buffer.take 320
    let r := drain_talk_frames codec (buffer.drop 320)
    (talk_frame codec chunk :: r.1, r.2)
  else
    ([], buffer)
termination_by buffer.length
decreasing_by simp only [List.length_drop]; omega

/-- Rust `send_audio` (lines 74-110): fail with `NotInitialized` when no
codec is recorded (leaving the state untouched), otherwise append the
input to the buffer and drain full 320-byte chunks into frames.  The
second component lists the raw frames handed to `send_raw_packet`. -/
def send_audio (s : TalkState) (data : List Nat) :
    TalkState × Except DVRIPError (List (List Nat)) :=
  match s.codec with
  | none => (s, .error .notInitialized)
  | some codec =>
    let r := drain_talk_frames codec (s.buffer ++ data)
    ({ codec := some codec, buffer := r.2 }, .ok r.1)

/-- The state effect of a successful `start_talk` (line 69): record the
codec. -/
def start_talk (s : TalkState) (codec : AudioCodec) : TalkState :=
  { s with codec := some codec }

/-- The state effect of a successful `stop_talk` (line 127): clear the
codec. -/
def stop_talk (s : TalkState) : TalkState :=
  { s with codec := none }

/-! ### `src/commands/monitoring.rs`: `read_bin_payload_static` -/

/-- Embedding of `struct FrameMetadata` (`src/commands/monitoring.rs`
lines 9-17); the `chrono` datetime is represented by the extracted
bitfields. -/
structure FrameMetadata where
  width : Option Nat
  height : Option Nat
  fps : Option Nat
  frame_type : Option String
  media_type : Option String
  datetime : Option DvrDateTime
deriving DecidableEq, Repr

/-- The all-`None` metadata the parser starts from (lines 123-130). -/
def FrameMetadata.empty : FrameMetadata :=
  ⟨none, none, none, none, none, none⟩

/-- Rust `internal_to_type_static` (lines 194-225). -/
def internal_to_type (dataType value : Nat) : Option String :=
  if dataType == 0x1FC || dataType == 0x1FD then
    match value with
    | 1 => some "mpeg4"
    | 2 => some "h264"
    | 3 => some "h265"
    | _ => none
  else if dataType == 0x1F9 then
    if value == 1 || value == 6 then some "info" else none
  else if dataType == 0x1FA then
    if value == 0xE then some "g711a" else none
  else if dataType == 0x1FE then
    if value == 0 then some "jpeg" else none
  else none

/-- The tail of `read_bin_payload_static` (lines 186-190): copy
`packet[frame_len..]` when `frame_len < packet.len()`, then truncate the
copy to `length`. -/
def payload_slice (packet : List Nat) (frameLen length : Nat) : List Nat :=
  (if frameLen < packet.length then packet.drop frameLen else []).take length

/-- The body of `read_bin_payload_static` (lines 120-192) after the
leading 4-byte tag has been read, which is possible exactly when the
packet holds at least 4 bytes.  Every guarded access of the Rust code is
in bounds under its guard, so this part is total.  (The Rust
`ProtocolError` message interpolates the unknown tag; the embedding
keeps a fixed message.) -/
def read_bin_payload_total (packet : List Nat) :
    Except DVRIPError (List Nat × FrameMetadata) :=
  let dataType := beRead32 packet 0
  if dataType == 0x1FC || dataType == 0x1FE then
    if 16 ≤ packet.length then
      let media := packet.getD 4 0
      let length := leRead32 packet 12
      let metadata : FrameMetadata :=
        { width := some (packet.getD 6 0 * 8)
          height := some (packet.getD 7 0 * 8)
          fps := some (packet.getD 5 0)
          frame_type := if dataType == 0x1FC then some "I" else none
          media_type := internal_to_type dataType media
          datetime := some (internal_to_datetime_fields (leRead32 packet 8)) }
      .ok (payload_slice packet 16 length, metadata)
    else
      .ok (payload_slice packet 16 0, FrameMetadata.empty)
  else if dataType == 0x1FD then
    if 8 ≤ packet.length then
      .ok (payload_slice packet 8 (leRead32 packet 4),
        { FrameMetadata.empty with frame_type := some "P" })
    else
      .ok (payload_slice packet 8 0, FrameMetadata.empty)
  else if dataType == 0x1FA then
    if 8 ≤ packet.length then
      .ok (payload_slice packet 8 (leRead16 packet 6),
        { FrameMetadata.empty with
            media_type := internal_to_type dataType (packet.getD 4 0) })
    else
      .ok (payload_slice packet 8 0, FrameMetadata.empty)
  else if dataType == 0x1F9 then
    if 8 ≤ packet.length then
      .ok (payload_slice packet 8 (leRead16 packet 6),
        { FrameMetadata.empty with
            media_type := internal_to_type dataType (packet.getD 4 0) })
    else
      .ok (payload_slice packet 8 0, FrameMetadata.empty)
  else if dataType == 0xFFD8FFE0 then
    .ok (packet, FrameMetadata.empty)
  else
    .error (.protocolError "Unknown data type")

/-- Rust `read_bin_payload_static` as called from `snapshot` and the
video-frame dispatch: `BigEndian::read_u32(&packet[0..4])` indexes the
slice `packet[0..4]`, which panics when the packet holds fewer than 4
bytes; the panic is modelled as `none`. -/
def read_bin_payload (packet : List Nat) :
    Option (Except DVRIPError (List Nat × FrameMetadata)) :=
  if packet.length < 4 then none
  else some (read_bin_payload_total packet)

/-! ### MD5 (Rust `md5::compute`, RFC 1321) and
`sofia_hash` (`src/protocol.rs` lines 167-182) -/

/-- Addition of 32-bit words. -/
def add32 (a b : Nat) : Nat := (a + b) % 4294967296

/-- Bitwise complement of a 32-bit word. -/
def not32 (a : Nat) : Nat := a ^^^ 0xFFFFFFFF

/-- Left rotation of a 32-bit word by `s` places, `0 < s < 32`. -/
def rotl32 (x s : Nat) : Nat := ((x <<< s) ||| (x >>> (32 - s))) % 4294967296

/-- The MD5 sine-derived constant table `K`. -/
def md5K : List Nat :=
  [0xd76aa478, 0xe8c7b756, 0x242070db, 0xc1bdceee,
   0xf57c0faf, 0x4787c62a, 0xa8304613, 0xfd469501,
   0x698098d8, 0x8b44f7af, 0xffff5bb1, 0x895cd7be,
   0x6b901122, 0xfd987193, 0xa679438e, 0x49b40821,
   0xf61e2562, 0xc040b340, 0x265e5a51, 0xe9b6c7aa,
   0xd62f105d, 0x02441453, 0xd8a1e681, 0xe7d3fbc8,
   0x21e1cde6, 0xc33707d6, 0xf4d50d87, 0x455a14ed,
   0xa9e3e905, 0xfcefa3f8, 0x676f02d9, 0x8d2a4c8a,
   0xfffa3942, 0x8771f681, 0x6d9d6122, 0xfde5380c,
   0xa4beea44, 0x4bdecfa9, 0xf6bb4b60, 0xbebfbc70,
   0x289b7ec6, 0xeaa127fa, 0xd4ef3085, 0x04881d05,
   0xd9d4d039, 0xe6db99e5, 0x1fa27cf8, 0xc4ac5665,
   0xf4292244, 0x432aff97, 0xab9423a7, 0xfc93a039,
   0x655b59c3, 0x8f0ccc92, 0xffeff47d, 0x85845dd1,
   0x6fa87e4f, 0xfe2ce6e0, 0xa3014314, 0x4e0811a1,
   0xf7537e82, 0xbd3af235, 0x2ad7d2bb, 0xeb86d391]

/-- The MD5 per-round left-rotation amounts `S`. -/
def md5S : List Nat :=
  [7, 12, 17, 22, 7, 12, 17, 22, 7, 12, 17, 22, 7, 12, 17, 22,
   5, 9, 14, 20, 5, 9, 14, 20, 5, 9, 14, 20, 5, 9, 14, 20,
   4, 11, 16, 23, 4, 11, 16, 23, 4, 11, 16, 23, 4, 11, 16, 23,
   6, 10, 15, 21, 6, 10, 15, 21, 6, 10, 15, 21, 6, 10, 15, 21]

/-- One MD5 round applied to the state `(a, b, c, d)`; `block` is the
current 64-byte chunk and `i` the round index. -/
def md5Round (block : List Nat) (st : Nat × Nat × Nat × Nat) (i : Nat) :
    Nat × Nat × Nat × Nat :=
  let (a, b, c, d) := st
  let fg : Nat × Nat :=
    if i < 16 then ((b &&& c) ||| (not32 b &&& d), i)
    else if i < 32 then ((d &&& b) ||| (not32 d &&& c), (5 * i + 1) % 16)
    else if i < 48 then (b ^^^ c ^^^ d, (3 * i + 5) % 16)
    else (c ^^^ (b ||| not32 d), (7 * i) % 16)
  let m := leRead32 block (4 * fg.2)
  let rotated := rotl32 (add32 (add32 (add32 a fg.1) (md5K.getD i 0)) m) (md5S.getD i 0)
  (d, add32 b rotated, b, c)

/-- Compress one 64-byte chunk into the running state. -/
def md5Compress (st : Nat × Nat × Nat × Nat) (block : List Nat) :
    Nat × Nat × Nat × Nat :=
  let (a0, b0, c0, d0) := st
  let r := (List.range 64).foldl (md5Round block) (a0, b0, c0, d0)
  (add32 a0 r.1, add32 b0 r.2.1, add32 c0 r.2.2.1, add32 d0 r.2.2.2)

/-- Fold the compression function over the successive 64-byte chunks of
an already padded message; `n` is the number of chunks. -/
def md5Blocks : Nat → Nat × Nat × Nat × Nat → List Nat → Nat × Nat × Nat × Nat
  | 0, st, _ => st
  | n + 1, st, msg => md5Blocks n (md5Compress st (msg.take 64)) (msg.drop 64)

/-- The eight little-endian bytes of the 64-bit message bit length. -/
def leBytes64 (n : Nat) : List Nat :=
  [n % 256, n / 256 % 256, n / 256 ^ 2 % 256, n / 256 ^ 3 % 256,
   n / 256 ^ 4 % 256, n / 256 ^ 5 % 256, n / 256 ^ 6 % 256, n / 256 ^ 7 % 256]

/-- MD5 padding: a `0x80` byte, zero bytes up to 56 mod 64, then the
original length in bits as a little-endian 64-bit value. -/
def md5Pad (msg : List Nat) : List Nat :=
  msg ++ [0x80] ++ List.replicate ((120 - (msg.length + 1) % 64) % 64) 0 ++
    leBytes64 (8 * msg.length % 2 ^ 64)

/-- The 16-byte MD5 digest of a byte sequence. -/
def md5 (msg : List Nat) : List Nat :=
  let padded := md5Pad msg
  let r := md5Blocks (padded.length / 64)
    (0x67452301, 0xefcdab89, 0x98badcfe, 0x10325476) padded
  leBytes32 r.1 ++ leBytes32 r.2.1 ++ leBytes32 r.2.2.1 ++ leBytes32 r.2.2.2

/-- UTF-8 encoding of one scalar value, as `str::as_bytes` sees it. -/
def utf8Bytes (c : Char) : List Nat :=
  let n := c.toNat
  if n < 0x80 then [n]
  else if n < 0x800 then
    [0xC0 ||| (n >>> 6), 0x80 ||| (n &&& 0x3F)]
  else if n < 0x10000 then
    [0xE0 ||| (n >>> 12), 0x80 ||| ((n >>> 6) &&& 0x3F), 0x80 ||| (n &&& 0x3F)]
  else
    [0xF0 ||| (n >>> 18), 0x80 ||| ((n >>> 12) &&& 0x3F),
     0x80 ||| ((n >>> 6) &&& 0x3F), 0x80 ||| (n &&& 0x3F)]

/-- Rust `password.as_bytes()`: the UTF-8 bytes of the string. -/
def strBytes (s : String) : List Nat := (s.data.map utf8Bytes).flatten

/-- The 62-character alphabet of `sofia_hash` (`src/protocol.rs` line
170). -/
def ALPHABET : List Char :=
  "0123456789ABCDEFGHIJKLMNOPQRSTUVWXYZabcdefghijklmnopqrstuvwxyz".data

/-- The character-building loop of `sofia_hash` (lines 174-180): for
each adjacent pair of digest bytes push `ALPHABET[(d2i + d2i1) % 62]`; a
trailing unpaired byte is skipped. -/
def sofiaChars : List Nat → List Char
  | a :: b :: rest => ALPHABET.getD ((a + b) % 62) '0' :: sofiaChars rest
  | _ => []

/-- Rust `sofia_hash` (`src/protocol.rs` lines 167-182). -/
def sofia_hash (password : String) : String :=
  ⟨sofiaChars (md5 (strBytes password))⟩

theorem encode_length (h : PacketHeader) : h.encode.length = 20 := by
  simp [PacketHeader.encode, leBytes32, leBytes16]

theorem leRead16_leBytes16 (n : Nat) (hn : n < 2 ^ 16) :
    leRead16 (leBytes16 n) 0 = n := by
  simp only [leBytes16, leRead16, List.getD]
  simp only [List.get?_eq_getElem?, List.getElem?_cons_zero, List.getElem?_cons_succ,
    Option.getD_some]
  omega

theorem leRead32_leBytes32 (n : Nat) (hn : n < 2 ^ 32) :
    leRead32 (leBytes32 n) 0 = n := by
  simp only [leBytes32, leRead32, List.getD]
  simp only [List.get?_eq_getElem?, List.getElem?_cons_zero, List.getElem?_cons_succ,
    Option.getD_some]
  have h1 : n / 256 % 256 = n / 256 - 256 * (n / 256 ^ 2) := by omega
  omega

theorem drain_talk_frames_ge (c : AudioCodec) (buf : List Nat)
    (h : 320 ≤ buf.length) :
    drain_talk_frames c buf =
      (talk_frame c (buf.take 320) :: (drain_talk_frames c (buf.drop 320)).1,
       (drain_talk_frames c (buf.drop 320)).2) := by
  rw [drain_talk_frames]
  simp [h]

theorem drain_talk_frames_lt (c : AudioCodec) (buf : List Nat)
    (h : buf.length < 320) :
    drain_talk_frames c buf = ([], buf) := by
  rw [drain_talk_frames]
  simp [Nat.not_le.mpr h]

theorem llf_loop_not64 (r : Option Nat) (fs : List FileEntry)
    (device : List FQReply) (result : List FileEntry) (queries : List String)
    (h : fs.length ≠ 64) :
    list_local_files_loop ⟨r, some fs⟩ device result queries =
      .ok (result, queries) := by
  rw [list_local_files_loop]
  simp [h]

theorem llf_loop_step (r r2 : Option Nat) (fs nf : List FileEntry)
    (e : FileEntry) (bt : String) (rest : List FQReply)
    (result : List FileEntry) (queries : List String)
    (h64 : fs.length = 64) (hl : fs.getLast? = some e)
    (hb : e.beginTime = some bt) (hne : nf ≠ []) :
    list_local_files_loop ⟨r, some fs⟩ (⟨r2, some nf⟩ :: rest) result queries =
      list_local_files_loop ⟨r2, some nf⟩ rest (result ++ nf)
        (queries ++ [bt]) := by
  rw [list_local_files_loop]
  simp [h64, hl, hb, hne]

theorem llf_loop_new_empty (r r2 : Option Nat) (fs : List FileEntry)
    (e : FileEntry) (bt : String) (rest : List FQReply)
    (result : List FileEntry) (queries : List String)
    (h64 : fs.length = 64) (hl : fs.getLast? = some e)
    (hb : e.beginTime = some bt) :
    list_local_files_loop ⟨r, some fs⟩ (⟨r2, some []⟩ :: rest) result queries =
      .ok (result, queries ++ [bt]) := by
  rw [list_local_files_loop]
  simp [h64, hl, hb]

theorem llf_loop_no_begin_time (r : Option Nat) (fs : List FileEntry)
    (e : FileEntry) (device : List FQReply) (result : List FileEntry)
    (queries : List String) (h64 : fs.length = 64)
    (hl : fs.getLast? = some e) (hb : e.beginTime = none) :
    list_local_files_loop ⟨r, some fs⟩ device result queries =
      .ok (result, queries) := by
  rw [list_local_files_loop]
  simp [h64, hl, hb]

theorem md5_length (msg : List Nat) : (md5 msg).length = 16 := by
  simp [md5, leBytes32]

theorem sofiaChars_length : ∀ l : List Nat, (sofiaChars l).length = l.length / 2
  | [] => by simp [sofiaChars]
  | [a] => by simp [sofiaChars]
  | a :: b :: rest => by
    rw [sofiaChars]
    simp only [List.length_cons, sofiaChars_length rest]
    omega

theorem ALPHABET_length : ALPHABET.length = 62 := by decide

theorem sofiaChars_mem : ∀ l : List Nat, ∀ c ∈ sofiaChars l, c ∈ ALPHABET
  | [], c, hc => by simp [sofiaChars] at hc
  | [a], c, hc => by simp [sofiaChars] at hc
  | a :: b :: rest, c, hc => by
    rw [sofiaChars] at hc
    rcases List.mem_cons.mp hc with h | h
    · subst h
      have hlt : (a + b) % 62 < ALPHABET.length := by
        rw [ALPHABET_length]; omega
      rw [List.getD_eq_getElem _ _ hlt]
      exact List.getElem_mem hlt
    · exact sofiaChars_mem rest c h

theorem sofiaChars_getD : ∀ (l : List Nat) (i : Nat), 2 * i + 1 < l.length →
    (sofiaChars l).getD i '0' =
      ALPHABET.getD ((l.getD (2 * i) 0 + l.getD (2 * i + 1) 0) % 62) '0'
  | [], i, hi => by simp at hi
  | [a], i, hi => by simp at hi
  | a :: b :: rest, 0, hi => by
    rw [sofiaChars]
    simp
  | a :: b :: rest, i + 1, hi => by
    have hr : 2 * i + 1 < rest.length := by
      simp at hi; omega
    have h2 : 2 * (i + 1) = 2 * i + 1 + 1 := by ring
    rw [sofiaChars, List.getD_cons_succ, h2]
    simp only [List.getD_cons_succ]
    exact sofiaChars_getD rest i hr

theorem read_bin_payload_total_shape (packet : List Nat) :
    (read_bin_payload_total packet).isOk = true ∨
      read_bin_payload_total packet =
        .error (.protocolError "Unknown data type") := by
  unfold read_bin_payload_total
  simp only []
  split_ifs <;> simp [Except.isOk, Except.toBool]

theorem decode_encode (h : PacketHeader) (hw : h.Wf) :
    PacketHeader.decode h.encode = .ok h := by
  obtain ⟨h1, h2, h3, h4, h5, h6⟩ := hw
  simp only [PacketHeader.decode, encode_length, PacketHeader.SIZE]
  norm_num
  simp only [PacketHeader.encode, leBytes32, leBytes16, leRead32, leRead16, List.getD,
    List.cons_append, List.nil_append, List.get?_eq_getElem?, List.getElem?_cons_zero,
    List.getElem?_cons_succ, Option.getD_some]
  have e3 : h.session / 256 % 256 = h.session / 256 - 256 * (h.session / 256 ^ 2) := by omega
  have e4 : h.packet_count / 256 % 256 =
      h.packet_count / 256 - 256 * (h.packet_count / 256 ^ 2) := by omega
  have e6 : h.data_len / 256 % 256 = h.data_len / 256 - 256 * (h.data_len / 256 ^ 2) := by omega
  cases h
  congr 1 <;> simp_all <;> omega

/-- C1: for every well-formed `PacketHeader` `h`, decoding the 20 bytes
produced by `encode h` succeeds and returns a header whose six fields
(`head`, `version`, `session`, `packet_count`, `msg_id`, `data_len`)
equal those of `h`. -/
theorem C1_encode_decode_roundtrip (h : PacketHeader) (hw : h.Wf) :
    PacketHeader.decode h.encode = .ok h := decode_encode h hw

/-- Witness for C1 at a concrete header. -/
theorem C1_encode_decode_roundtrip_witness :
    PacketHeader.decode (PacketHeader.encode
        ⟨255, 0, 0x12345678, 42, 1440, 77⟩) =
      .ok ⟨255, 0, 0x12345678, 42, 1440, 77⟩ :=
  C1_encode_decode_roundtrip ⟨255, 0, 0x12345678, 42, 1440, 77⟩ (by decide)

set_option maxRecDepth 10000 in
/-- C2 counterexample: `sofia_hash "tlJwpbo6"` is not `"6QNMIA55"` (it
is `"g8vqSN71"`). -/
theorem C2_counterexample_concrete_value : sofia_hash "tlJwpbo6" ≠ "6QNMIA55" := by
  decide

set_option maxRecDepth 10000 in
/-- C2 (amended): for every password `p`, `sofia_hash p` is a string of
exactly 8 characters drawn from the 62-character alphabet, the `i`-th
character being `ALPHABET[(d[2i] + d[2i+1]) % 62]` for `d` the 16-byte
MD5 digest of `p`; in particular `sofia_hash "tlJwpbo6" = "g8vqSN71"`. -/
theorem C2_sofia_hash_spec :
    (∀ p : String,
      (sofia_hash p).length = 8 ∧
      (∀ c ∈ (sofia_hash p).data, c ∈ ALPHABET) ∧
      (∀ i, i < 8 →
        (sofia_hash p).data.getD i '0' =
          ALPHABET.getD (((md5 (strBytes p)).getD (2 * i) 0 +
            (md5 (strBytes p)).getD (2 * i + 1) 0) % 62) '0')) ∧
    sofia_hash "tlJwpbo6" = "g8vqSN71" := by
  constructor
  · intro p
    refine ⟨?_, ?_, ?_⟩
    · show (sofiaChars (md5 (strBytes p))).length = 8
      rw [sofiaChars_length, md5_length]
    · intro c hc
      exact sofiaChars_mem _ c hc
    · intro i hi
      apply sofiaChars_getD
      rw [md5_length]
      omega
  · decide

set_option maxRecDepth 10000 in
/-- Witness for C2 at `p = "tlJwpbo6"` and `i = 0`. -/
theorem C2_sofia_hash_spec_witness :
    (sofia_hash "tlJwpbo6").length = 8 ∧
    (sofia_hash "tlJwpbo6").data.getD 0 '0' =
      ALPHABET.getD (((md5 (strBytes "tlJwpbo6")).getD 0 0 +
        (md5 (strBytes "tlJwpbo6")).getD 1 0) % 62) '0' :=
  ⟨(C2_sofia_hash_spec.1 "tlJwpbo6").1, by
    have h := (C2_sofia_hash_spec.1 "tlJwpbo6").2.2 0 (by decide)
    simpa using h⟩

/-- C3 counterexample: `list_local_files` treats a first reply with
`Ret = 515` as a failure (empty result) although the same reply with
`Ret = 100` yields its entry, so `Ret` success is not decided by
membership in `{100, 515}` everywhere. -/
theorem C3_counterexample_515_not_ok :
    list_local_files [⟨some 515, some [⟨some "t", 0⟩]⟩] "s" =
        .ok ([], ["s"]) ∧
      list_local_files [⟨some 100, some [⟨some "t", 0⟩]⟩] "s" =
        .ok ([⟨some "t", 0⟩], ["s"]) := by
  constructor
  · rfl
  · rfl

/-- C3 (amended): `get_command` and `upgrade` phase A decide success by
membership of `Ret` in `{100, 515}`; but the first-reply check of
`list_local_files` and the per-block ACK check of `upgrade` use equality
with `100` alone, so there a reply with `Ret = 515` is not treated as a
success: `list_local_files` returns an empty list for it. -/
theorem C3_ret_code_evaluation :
    (∀ reply : JsonReply, get_command_ret_ok reply = true ↔
        (reply.ret = some 100 ∨ reply.ret = some 515)) ∧
    (∀ (reply : JsonReply) (blocks : List (List Nat)),
        (upgrade_phase_a reply blocks).2 = none ↔
          (reply.ret = none ∨ reply.ret = some 100 ∨ reply.ret = some 515)) ∧
    (∀ reply : FQReply, list_local_files_ret_fails reply = true ↔
        (∃ r, reply.ret = some r ∧ r ≠ 100)) ∧
    upgrade_block_ack_fails ⟨some 515, 0⟩ = true ∧
    (∀ (entries : List FileEntry) (d : List FQReply) (s : String),
        list_local_files (⟨some 515, some entries⟩ :: d) s =
          Except.ok ([], [s])) := by
  refine ⟨?_, ?_, ?_, ?_, ?_⟩
  · intro reply
    rcases reply with ⟨ret, rest⟩
    cases ret <;> simp [get_command_ret_ok, OK_CODES]
  · intro reply blocks
    rcases reply with ⟨ret, rest⟩
    cases ret <;> simp [upgrade_phase_a, OK_CODES]
    split_ifs <;> simp_all
    tauto
  · intro reply
    rcases reply with ⟨ret, files⟩
    cases ret <;> simp [list_local_files_ret_fails]
  · rfl
  · intro entries d s
    simp [list_local_files, list_local_files_ret_fails]

theorem list_local_files_ret_100 (files : Option (List FileEntry))
    (rest : List FQReply) (start : String) :
    list_local_files (⟨some 100, files⟩ :: rest) start =
      list_local_files_loop ⟨some 100, files⟩ rest
        (match files with | some fs => fs | none => []) [start] := by
  simp [list_local_files, list_local_files_ret_fails]

/-- C5: with a device answering the first query with exactly 64 entries
and the second with 10, `list_local_files` returns the 74 entries and
issues exactly two queries, the second carrying the `BeginTime`
of the 64th entry; it stops as soon as a reply has other than 64 entries, the
follow-up list is empty, or the last entry lacks a `BeginTime`. -/
theorem C5_list_local_files_pagination :
    (∀ (fs1 fs2 : List FileEntry) (e : FileEntry) (bt start : String)
        (d : List FQReply),
        fs1.length = 64 → fs2.length = 10 → fs1.getLast? = some e →
        e.beginTime = some bt →
        list_local_files (⟨some 100, some fs1⟩ :: ⟨some 100, some fs2⟩ :: d)
            start = .ok (fs1 ++ fs2, [start, bt]) ∧
          (fs1 ++ fs2).length = 74) ∧
    (∀ (fs : List FileEntry) (start : String) (d : List FQReply),
        fs.length ≠ 64 →
        list_local_files (⟨some 100, some fs⟩ :: d) start =
          .ok (fs, [start])) ∧
    (∀ (fs1 : List FileEntry) (e : FileEntry) (bt start : String)
        (d : List FQReply),
        fs1.length = 64 → fs1.getLast? = some e → e.beginTime = some bt →
        list_local_files (⟨some 100, some fs1⟩ :: ⟨some 100, some []⟩ :: d)
            start = .ok (fs1, [start, bt])) ∧
    (∀ (fs1 : List FileEntry) (e : FileEntry) (start : String)
        (d : List FQReply),
        fs1.length = 64 → fs1.getLast? = some e → e.beginTime = none →
        list_local_files (⟨some 100, some fs1⟩ :: d) start =
          .ok (fs1, [start])) := by
  refine ⟨?_, ?_, ?_, ?_⟩
  · intro fs1 fs2 e bt start d h1 h2 hl hb
    have hne : fs2 ≠ [] := by
      intro hc
      rw [hc] at h2
      simp at h2
    have h64 : fs2.length ≠ 64 := by omega
    constructor
    · rw [list_local_files_ret_100]
      rw [llf_loop_step (some 100) (some 100) fs1 fs2 e bt d fs1 [start]
        h1 hl hb hne]
      rw [llf_loop_not64 (some 100) fs2 d (fs1 ++ fs2) ([start] ++ [bt]) h64]
      rfl
    · rw [List.length_append, h1, h2]
  · intro fs start d h
    rw [list_local_files_ret_100]
    exact llf_loop_not64 (some 100) fs d fs [start] h
  · intro fs1 e bt start d h1 hl hb
    rw [list_local_files_ret_100]
    rw [llf_loop_new_empty (some 100) (some 100) fs1 e bt d fs1 [start]
      h1 hl hb]
    rfl
  · intro fs1 e start d h1 hl hb
    rw [list_local_files_ret_100]
    exact llf_loop_no_begin_time (some 100) fs1 e d fs1 [start] h1 hl hb

/-- Witness for C5: 64 identical entries then 10 entries. -/
theorem C5_list_local_files_pagination_witness :
    list_local_files
        [⟨some 100, some (List.replicate 64 (⟨some "b", 1⟩ : FileEntry))⟩,
         ⟨some 100, some (List.replicate 10 (⟨some "c", 2⟩ : FileEntry))⟩]
        "start" =
      .ok (List.replicate 64 (⟨some "b", 1⟩ : FileEntry) ++
        List.replicate 10 (⟨some "c", 2⟩ : FileEntry), ["start", "b"]) ∧
    (List.replicate 64 (⟨some "b", 1⟩ : FileEntry) ++
      List.replicate 10 (⟨some "c", 2⟩ : FileEntry)).length = 74 :=
  C5_list_local_files_pagination.1
    (List.replicate 64 (⟨some "b", 1⟩ : FileEntry))
    (List.replicate 10 (⟨some "c", 2⟩ : FileEntry))
    (⟨some "b", 1⟩ : FileEntry) "b" "start" []
    (by rw [List.length_replicate]) (by rw [List.length_replicate])
    (by decide) rfl

/-- C6: after `start_talk` with PCMA on an empty buffer, `send_audio`
with 800 bytes emits exactly two frames, each the big-endian `u32`
`0x000001FA`, codec id 14, sample-rate index 2, the little-endian `u16`
320, and one 320-byte chunk of the input in order, leaving 160 bytes
buffered. -/
theorem C6_send_audio_800_pcma (data : List Nat) (h : data.length = 800) :
    send_audio (start_talk ⟨none, []⟩ .PCMA) data =
      (⟨some .PCMA, data.drop 640⟩,
        .ok [[0x00, 0x00, 0x01, 0xFA, 14, 2, 0x40, 0x01] ++ data.take 320,
             [0x00, 0x00, 0x01, 0xFA, 14, 2, 0x40, 0x01] ++
               (data.drop 320).take 320]) ∧
    (data.drop 640).length = 160 := by
  have h320 : (320 : Nat) ≤ data.length := by omega
  have h320' : (320 : Nat) ≤ (data.drop 320).length := by
    rw [List.length_drop]
    omega
  have hlt : ((data.drop 320).drop 320).length < 320 := by
    simp only [List.length_drop]
    omega
  constructor
  · show send_audio ⟨some .PCMA, []⟩ data = _
    unfold send_audio
    simp only [List.nil_append]
    rw [drain_talk_frames_ge _ _ h320, drain_talk_frames_ge _ _ h320',
      drain_talk_frames_lt _ _ hlt]
    simp [talk_frame, beBytes32, leBytes16, codec_id]
  · rw [List.length_drop]
    omega

/-- Witness for C6 on 800 zero bytes. -/
theorem C6_send_audio_800_pcma_witness :
    send_audio (start_talk ⟨none, []⟩ .PCMA) (List.replicate 800 0) =
      (⟨some .PCMA, (List.replicate 800 0).drop 640⟩,
        .ok [[0x00, 0x00, 0x01, 0xFA, 14, 2, 0x40, 0x01] ++
              (List.replicate 800 0).take 320,
             [0x00, 0x00, 0x01, 0xFA, 14, 2, 0x40, 0x01] ++
               ((List.replicate 800 0).drop 320).take 320]) ∧
    ((List.replicate 800 (0 : Nat)).drop 640).length = 160 :=
  C6_send_audio_800_pcma (List.replicate 800 0) (by rw [List.length_replicate])

/-- C9: `send_audio` with no recorded codec (never started, or cleared
by `stop_talk`) returns `NotInitialized` leaving the state untouched;
once a codec is recorded (as `start_talk` does) it returns `ok`. -/
theorem C9_send_audio_requires_codec :
    (∀ (s : TalkState) (data : List Nat), s.codec = none →
        send_audio s data = (s, .error .notInitialized)) ∧
    (∀ (s : TalkState) (data : List Nat),
        send_audio (stop_talk s) data =
          (stop_talk s, .error .notInitialized)) ∧
    (∀ (s : TalkState) (c : AudioCodec) (data : List Nat),
        s.codec = some c →
        ∃ s2 frames, send_audio s data = (s2, .ok frames)) ∧
    (∀ (s : TalkState) (c : AudioCodec) (data : List Nat),
        ∃ s2 frames, send_audio (start_talk s c) data = (s2, .ok frames)) := by
  refine ⟨?_, ?_, ?_, ?_⟩
  · intro s data hc
    rcases s with ⟨cod, buf⟩
    simp only at hc
    subst hc
    rfl
  · intro s data
    rfl
  · intro s c data hc
    rcases s with ⟨cod, buf⟩
    simp only at hc
    subst hc
    exact ⟨_, _, rfl⟩
  · intro s c data
    exact ⟨_, _, rfl⟩

/-- Witness for C9: empty state with and without a codec. -/
theorem C9_send_audio_requires_codec_witness :
    send_audio ⟨none, [5]⟩ [1, 2] = (⟨none, [5]⟩, .error .notInitialized) ∧
    (∃ s2 frames,
      send_audio ⟨some .PCMU, []⟩ [1, 2] = (s2, Except.ok frames)) :=
  ⟨C9_send_audio_requires_codec.1 ⟨none, [5]⟩ [1, 2] rfl,
   C9_send_audio_requires_codec.2.2.1 ⟨some .PCMU, []⟩ .PCMU [1, 2] rfl⟩

/-- C10: the media payload parser is total exactly on packets of at
least 4 bytes: there it returns a frame or a `ProtocolError`, while a
shorter packet makes the leading 4-byte tag read panic (modelled as
`none`). -/
theorem C10_read_bin_payload_totality (packet : List Nat) :
    (packet.length < 4 → read_bin_payload packet = none) ∧
    (4 ≤ packet.length →
      ∃ r, read_bin_payload packet = some r ∧
        (r.isOk = true ∨
          r = .error (.protocolError "Unknown data type"))) := by
  constructor
  · intro h
    simp [read_bin_payload, h]
  · intro h
    refine ⟨read_bin_payload_total packet, ?_,
      read_bin_payload_total_shape packet⟩
    rw [read_bin_payload, if_neg (by omega)]

/-- Witness for C10: a 2-byte packet panics, a 4-byte audio-tag packet
parses. -/
theorem C10_read_bin_payload_totality_witness :
    read_bin_payload [0, 0] = none ∧
    ∃ r, read_bin_payload [0, 0, 1, 0xFA] = some r ∧
      (r.isOk = true ∨ r = .error (.protocolError "Unknown data type")) :=
  ⟨(C10_read_bin_payload_totality [0, 0]).1 (by decide),
   (C10_read_bin_payload_totality [0, 0, 1, 0xFA]).2 (by decide)⟩

theorem writer_special_iff (m : Nat) :
    writer_special_msg_id m = true ↔ (m = 0x0585 ∨ m = 0x0590 ∨ m = 0x059A) := by
  simp [writer_special_msg_id]
  tauto

/-- C4: for every request carrying a response sink, the writer task
emits exactly one waiter-table insertion, placed before the header and
body writes, keyed by the effective packet counter plus 1 for message
ids `0x0585`, `0x0590`, `0x059A` and by the counter itself otherwise. -/
theorem C4_writer_insert_before_write (pc : Nat) (request : CommandRequest)
    (sink : Nat) (hd : PacketHeader)
    (hs : request.response_sender = some sink)
    (hh : hd = if request.use_internal_counter then
        { request.header with packet_count := pc }
      else request.header) :
    (writer_step pc request).1 =
      [WriterEvent.insertWaiter
          (if hd.msg_id = 0x0585 ∨ hd.msg_id = 0x0590 ∨ hd.msg_id = 0x059A
           then hd.packet_count + 1 else hd.packet_count) sink,
       WriterEvent.writeBytes hd.encode,
       WriterEvent.writeBytes request.data,
       WriterEvent.flush] := by
  rcases request with ⟨hdr0, uic, rs, dat⟩
  simp only at hs
  subst hs
  by_cases hm : hd.msg_id = 0x0585 ∨ hd.msg_id = 0x0590 ∨ hd.msg_id = 0x059A
  · have hb := (writer_special_iff hd.msg_id).mpr hm
    cases uic <;> simp_all [writer_step]
  · have hb : writer_special_msg_id hd.msg_id = false := by
      rw [← Bool.not_eq_true]
      intro hc
      exact hm ((writer_special_iff _).mp hc)
    cases uic <;> simp_all [writer_step]

/-- Witness for C4: a request with the special message id `0x0585` and
the internal counter, at counter 5. -/
theorem C4_writer_insert_before_write_witness :
    (writer_step 5 ⟨⟨255, 0, 7, 9, 0x0585, 4⟩, true, some 3, [1, 2]⟩).1 =
      [WriterEvent.insertWaiter 6 3,
       WriterEvent.writeBytes (PacketHeader.encode ⟨255, 0, 7, 5, 0x0585, 4⟩),
       WriterEvent.writeBytes [1, 2],
       WriterEvent.flush] :=
  (C4_writer_insert_before_write 5 ⟨⟨255, 0, 7, 9, 0x0585, 4⟩, true, some 3, [1, 2]⟩
    3 ⟨255, 0, 7, 5, 0x0585, 4⟩ rfl rfl).trans (by decide)

/-- C7 counterexample: the phase-A `set_command` of `upgrade` passes the
explicit code `0x5F0`, so the message id sent is `0x5F0`, not `0x5F5`. -/
theorem C7_counterexample_msg_id :
    upgrade_phase_a_msg_id = 0x5F0 ∧ upgrade_phase_a_msg_id ≠ 0x5F5 := by
  constructor
  · decide
  · decide

/-- C7 (amended): phase A of `upgrade` submits
`set("OPSystemUpgrade", {Action: "Start", Type: "System"})` with message
code `0x5F0` (the explicit code overriding the `QCODES` entry `0x5F5`),
and whenever the reply field `Ret` is present and not in the success set
`{100, 515}`, `upgrade` returns that reply unchanged without sending any
firmware block. -/
theorem C7_upgrade_phase_a_failure (reply : JsonReply) (r : Nat)
    (blocks : List (List Nat)) (h : reply.ret = some r)
    (hr : r ≠ 100 ∧ r ≠ 515) :
    upgrade_phase_a_msg_id = 0x5F0 ∧
      upgrade_phase_a reply blocks = ([], some reply) := by
  refine ⟨by decide, ?_⟩
  rcases reply with ⟨ret, rest⟩
  simp only at h
  subst h
  simp [upgrade_phase_a, OK_CODES, hr.1, hr.2]

/-- Witness for C7: a start reply with `Ret = 103`. -/
theorem C7_upgrade_phase_a_failure_witness :
    upgrade_phase_a_msg_id = 0x5F0 ∧
      upgrade_phase_a ⟨some 103, 0⟩ [[1, 2], [3]] = ([], some ⟨some 103, 0⟩) :=
  C7_upgrade_phase_a_failure ⟨some 103, 0⟩ 103 [[1, 2], [3]] rfl
    (by decide)

/-- Witness for C3 at concrete replies. -/
theorem C3_ret_code_evaluation_witness :
    get_command_ret_ok ⟨some 515, 0⟩ = true ∧
    list_local_files [⟨some 515, some [⟨some "x", 3⟩]⟩] "q" =
      Except.ok ([], ["q"]) :=
  ⟨(C3_ret_code_evaluation.1 ⟨some 515, 0⟩).mpr (Or.inr rfl),
   C3_ret_code_evaluation.2.2.2.2 [⟨some "x", 3⟩] [] "q"⟩

/-- C8 counterexample: decoding `0x30C78888` by the stated bitfield
layout yields `hour = 24`, not `hour = 8` as claimed. -/
theorem C8_counterexample_hour :
    (internal_to_datetime_fields 0x30C78888).hour = 24 ∧ (24 : Nat) ≠ 8 := by
  constructor
  · decide
  · decide

/-- C8 (amended): decoding the packed device time `0x30C78888` by the
bitfield layout (bits 0-5 seconds, 6-11 minutes, 12-16 hours, 17-21 day,
22-25 month, 26-31 year offset from 2000) yields `second = 8`,
`minute = 34`, `hour = 24`, `day = 3`, `month = 3`, `year = 2012`. -/
theorem C8_internal_to_datetime_0x30C78888 :
    internal_to_datetime_fields 0x30C78888 = ⟨8, 34, 24, 3, 3, 2012⟩ := by
  decide

end DVRIP
